import Mathlib

/-!
Verification development for the repository
`python-app-practices-use-it-or-lose-it`, which contains two straight-line
training scripts:

* `02-keras-2L-diabetes-predict/keras-predictor.py` — a binary diabetes
  predictor (pandas + sklearn `train_test_split` + a Keras `Sequential`
  model with two hidden layers);
* `_homeworks_/homework_04/cardiotocographic-classification.py` — a
  multi-class cardiotocographic patient-state predictor (pandas + sklearn
  `MinMaxScaler`/`OneHotEncoder`/`train_test_split` + a Keras `Sequential`
  model, saved to `.h5`, scaler pickled).

The scripts are shallowly embedded below: the layer lists of the two
`Sequential` models, the ordered trace of effectful steps each script
performs, and a functional model of each script body (over exact rationals,
with the externally-trained network abstracted as an oracle parameter and
file reads modelled as `Except`-valued inputs).
-/

/-- Activation functions that appear in the two scripts. -/
inductive Activation where
  | relu
  | sigmoid
  | softmax
deriving DecidableEq, Repr

/-- A Keras `Dense` layer as configured by the scripts: unit count,
activation, the optional `input_dim` (passed only on the first layer) and
the layer name. -/
structure DenseLayer where
  units : Nat
  activation : Activation
  inputDim : Option Nat
  layerName : String
deriving DecidableEq, Repr

/-- A Keras `Sequential` model: its name and the list of layers added so
far, in order. -/
structure SequentialModel where
  modelName : String
  layers : List DenseLayer
deriving DecidableEq, Repr

/-- Appending a layer at the end, as `keras.Sequential.add` does. -/
def SequentialModel.add (m : SequentialModel) (l : DenseLayer) : SequentialModel :=
  { m with layers := m.layers ++ [l] }

/-- The model built by `keras-predictor.py` lines 42–49:
`Sequential(name='Pima-Indians-Diabetes-X_test')`, then
`Dense(64, relu, input_dim=X_train.shape[1], 'hidden-1')`,
`Dense(64, relu, 'hidden-2')`, `Dense(1, sigmoid, 'output')`. -/
def diabetesModel (inputDim : Nat) : SequentialModel :=
  (((⟨"Pima-Indians-Diabetes-X_test", []⟩ : SequentialModel).add
      ⟨64, Activation.relu, some inputDim, "hidden-1"⟩).add
    ⟨64, Activation.relu, none, "hidden-2"⟩).add
  ⟨1, Activation.sigmoid, none, "output"⟩

/-- Function `create_cardiotocographic_model` of
`cardiotocographic-classification.py` lines 14–39 (model construction part):
`Sequential(name=name)`, then `Dense(64, relu, input_dim, 'Hidden1')`,
`Dense(64, relu, 'Hidden2')`, `Dense(num_categories, softmax, 'output')`. -/
def create_cardiotocographic_model (input_dim num_categories : Nat)
    (name : String) : SequentialModel :=
  (((⟨name, []⟩ : SequentialModel).add
      ⟨64, Activation.relu, some input_dim, "Hidden1"⟩).add
    ⟨64, Activation.relu, none, "Hidden2"⟩).add
  ⟨num_categories, Activation.softmax, none, "output"⟩

/-- The effectful operations the two scripts perform, at the granularity of
the source lines. -/
inductive Step where
  | loadTrainData
  | selectColumns
  | splitData
  | scaleFeatures
  | encodeLabels
  | loadPredictInput
  | scalePredictInput
  | buildModel
  | summarizeModel
  | compileModel
  | fitModel
  | evaluateModel
  | predictModel
  | saveModel
  | plotGraph
  | printAccuracy
  | printPredictions
  | saveScaler
deriving DecidableEq, Repr

/-- The ordered trace of `keras-predictor.py` (module body): `read_csv`
(l.28), `train_test_split` (l.31), model construction (l.42–49),
`model.summary()` (l.52), `model.compile` (l.55), `model.fit` (l.59),
`model.evaluate` (l.62), `print accuracy` (l.65), `read_csv` of
`predicted.csv` (l.68), `model.predict` (l.71), printing the predictions
(l.74–75). There is no scaling, no encoding, no save of any kind. -/
def diabetesTrace : List Step :=
  [Step.loadTrainData, Step.splitData, Step.buildModel, Step.summarizeModel,
   Step.compileModel, Step.fitModel, Step.evaluateModel, Step.printAccuracy,
   Step.loadPredictInput, Step.predictModel, Step.printPredictions]

/-- The ordered trace of `cardiotocographic-classification.py`, `main()`
with its helper calls inlined: `read_excel` (l.103), column selection
(l.106), `train_test_split` (l.111), `MinMaxScaler` fit/transform
(l.122–124), `OneHotEncoder` fit_transform twice (l.127–129), `read_csv`
of `predicted.csv` (l.132), scaling of the prediction input (l.135), model
construction (l.24–31), `model.summary()` (l.34), `model.compile` (l.37),
`model.fit` (l.63), `model.evaluate` (l.65), `model.predict` (l.67),
`model.save` (l.69), two `plot_metric_graph` calls (l.147–148), printing
the metrics (l.151–154), printing the predicted labels (l.156–158), and
pickling the scaler (l.160–161). -/
def cardioTrace : List Step :=
  [Step.loadTrainData, Step.selectColumns, Step.splitData, Step.scaleFeatures,
   Step.encodeLabels, Step.loadPredictInput, Step.scalePredictInput,
   Step.buildModel, Step.summarizeModel, Step.compileModel, Step.fitModel,
   Step.evaluateModel, Step.predictModel, Step.saveModel, Step.plotGraph,
   Step.plotGraph, Step.printAccuracy, Step.printPredictions, Step.saveScaler]

/-- Position of a step in the pipeline of spec §2
(load → split → scale/encode → build model → fit → evaluate → predict →
report/save). Preparation of the companion "to predict" file is not a
stage of that main-dataset pipeline and is mapped to `none`. -/
def specStage : Step → Option Nat
  | Step.loadTrainData => some 0
  | Step.selectColumns => some 0
  | Step.splitData => some 1
  | Step.scaleFeatures => some 2
  | Step.encodeLabels => some 2
  | Step.loadPredictInput => none
  | Step.scalePredictInput => none
  | Step.buildModel => some 3
  | Step.summarizeModel => some 3
  | Step.compileModel => some 3
  | Step.fitModel => some 4
  | Step.evaluateModel => some 5
  | Step.predictModel => some 6
  | Step.saveModel => some 7
  | Step.plotGraph => some 7
  | Step.printAccuracy => some 7
  | Step.printPredictions => some 7
  | Step.saveScaler => some 7

/-- Whether a step writes a file to disk. -/
def stepWritesFile : Step → Bool
  | Step.saveModel => true
  | Step.plotGraph => true
  | Step.saveScaler => true
  | _ => false

/-- The files the cardiotocographic script writes, in order:
`model.save(f'\x7bname\x7d.h5')` with `name='cardiotocographic-predictor'`
(l.69), `plt.savefig(f'\x7btitle\x7d.jpg')` for the two plot titles
(l.93, l.147–148), and the scaler pickle (l.160–161). -/
def cardioFilesWritten : List String :=
  ["cardiotocographic-predictor.h5", "Epoch-Loss Graph.jpg",
   "Epoch-Categorical Accuracy Graph.jpg", "cardiotocographic.pickle"]

/-- C2: every model built by either script has exactly two hidden Dense
layers of 64 ReLU units each, followed by a single output layer (1 sigmoid
unit in the diabetes script, `num_categories` softmax units in the
cardiotocographic script), and no other layers. -/
theorem c2_model_architecture :
    ∀ (input_dim num_categories : Nat) (name : String),
      (diabetesModel input_dim).layers.length = 3 ∧
      (diabetesModel input_dim).layers.map DenseLayer.units = [64, 64, 1] ∧
      (diabetesModel input_dim).layers.map DenseLayer.activation =
        [Activation.relu, Activation.relu, Activation.sigmoid] ∧
      (create_cardiotocographic_model input_dim num_categories name).layers.length = 3 ∧
      (create_cardiotocographic_model input_dim num_categories name).layers.map
        DenseLayer.units = [64, 64, num_categories] ∧
      (create_cardiotocographic_model input_dim num_categories name).layers.map
        DenseLayer.activation =
        [Activation.relu, Activation.relu, Activation.softmax] := by
  intro d n s
  exact ⟨rfl, rfl, rfl, rfl, rfl, rfl⟩

/-- C1 counterexample: the diabetes script performs no model-save and no
scaler-save step (indeed it performs no file-writing step at all), so the
claim that every script serializes the fitted model and scaler is false. -/
theorem c1_counterexample :
    Step.saveModel ∉ diabetesTrace ∧ Step.saveScaler ∉ diabetesTrace ∧
      ∀ s ∈ diabetesTrace, stepWritesFile s = false := by
  decide

/-- C1 amended: only the cardiotocographic script serializes the fitted
model (`cardiotocographic-predictor.h5`) and the fitted scaler
(`cardiotocographic.pickle`); the diabetes script performs no save step
and writes no file. -/
theorem c1_amended :
    Step.saveModel ∈ cardioTrace ∧ Step.saveScaler ∈ cardioTrace ∧
      "cardiotocographic-predictor.h5" ∈ cardioFilesWritten ∧
      "cardiotocographic.pickle" ∈ cardioFilesWritten ∧
      Step.saveModel ∉ diabetesTrace ∧ Step.saveScaler ∉ diabetesTrace ∧
      ∀ s ∈ diabetesTrace, stepWritesFile s = false := by
  refine ⟨by decide, by decide, ?_, ?_, by decide, by decide, by decide⟩
  · simp [cardioFilesWritten]
  · simp [cardioFilesWritten]

/-- C3 counterexample: the diabetes script has no scale/encode stage and no
save step, so the claim that its run contains the scale/encode and save
steps of the pipeline is false. -/
theorem c3_counterexample :
    (∀ s ∈ diabetesTrace, specStage s ≠ some 2) ∧
      Step.saveModel ∉ diabetesTrace ∧ Step.saveScaler ∉ diabetesTrace := by
  decide

/-- C3 amended: the cardiotocographic script executes the pipeline stages
load → split → scale/encode → build → fit → evaluate → predict →
report/save in this order; the diabetes script has no scale/encode stage
and no save step, and its remaining stages load → split → build → fit →
evaluate → predict occur in order, with the test-accuracy report printed
between evaluate and predict. -/
theorem c3_amended :
    (cardioTrace.filterMap specStage).Sorted (· ≤ ·) ∧
      (∀ s ∈ diabetesTrace, specStage s ≠ some 2) ∧
      Step.saveModel ∉ diabetesTrace ∧ Step.saveScaler ∉ diabetesTrace ∧
      ((diabetesTrace.filterMap specStage).filter (fun k => k ≠ 7)).Sorted (· ≤ ·) ∧
      diabetesTrace.filterMap specStage = [0, 1, 3, 3, 3, 4, 5, 7, 6, 7] := by
  refine ⟨?_, by decide, by decide, by decide, ?_, by decide⟩ <;> decide

/-- Python `row.iloc[:-1]`: the feature part of a data row (all columns but the
last). -/
def features (row : List ℚ) : List ℚ := row.dropLast

/-- Python `row.iloc[-1]`: the label column of a data row (the last column). -/
def label (row : List ℚ) : ℚ := row.getLastD 0

/-- Function `sklearn.model_selection.train_test_split` on an already-shuffled list:
the test set is the first `nTest` elements of the shuffled data, the
training set is the rest. Both scripts call it with a fractional
`test_size` and no `random_state`; the shuffle and the resulting test-set
cardinality enter the model as parameters. Returns `(train, test)` in the
order the scripts destructure the result. -/
def trainTestSplit (shuffled : List α) (nTest : Nat) : List α × List α :=
  (shuffled.drop nTest, shuffled.take nTest)

/-- The textual arguments of a `train_test_split` call site: the
`test_size` fraction and the optional `random_state` seed. -/
structure TrainTestSplitArgs where
  testSize : ℚ
  randomState : Option Nat
deriving DecidableEq, Repr

/-- The call `train_test_split(diabetes_data, test_size=1-DIVIDE_RATIO)`
(keras-predictor.py l.31, with `DIVIDE_RATIO = .8`): no `random_state`
argument is passed. -/
def diabetesSplitCall : TrainTestSplitArgs := ⟨1 - 4/5, none⟩

/-- The call `train_test_split(CTG_data, test_size=.2)`
(cardiotocographic-classification.py l.111): no `random_state` argument is
passed. -/
def cardioSplitCall : TrainTestSplitArgs := ⟨1/5, none⟩

/-- The per-column `(min, max)` pairs `MinMaxScaler.fit` extracts from the
training features. -/
def fitMinMax (rows : List (List ℚ)) : List (ℚ × ℚ) :=
  rows.transpose.map (fun col => (col.foldr min (col.headD 0), col.foldr max (col.headD 0)))

/-- Method `MinMaxScaler.transform` of one row: column-wise
`(x - min) / (max - min)`, with a zero range treated as scale 1 as sklearn
does. -/
def minMaxTransform (params : List (ℚ × ℚ)) (row : List ℚ) : List ℚ :=
  (params.zip row).map (fun p =>
    if p.1.2 - p.1.1 = 0 then p.2 - p.1.1 else (p.2 - p.1.1) / (p.1.2 - p.1.1))

/-- The category list an `OneHotEncoder` infers with `fit`: the distinct
values of the fitted column, in sorted order. -/
def oneHotCategories (ys : List ℚ) : List ℚ :=
  List.insertionSort (· ≤ ·) ys.dedup

/-- The one-hot row a fitted encoder assigns to a value: an indicator
vector over the fitted categories. -/
def oneHotRow (cats : List ℚ) (y : ℚ) : List ℚ :=
  cats.map (fun c => if c = y then 1 else 0)

/-- Call `OneHotEncoder(...).fit_transform(ys)`: fit the categories on `ys`
itself, then encode each element of `ys` against them. Both the `y_train`
and the `y_test` encodings of the cardiotocographic script (l.128–129) use
this fresh-fit form. -/
def fit_transform (ys : List ℚ) : List (List ℚ) :=
  ys.map (oneHotRow (oneHotCategories ys))

/-- The column a fitted encoder assigns to a value: its index in the
fitted category list, `none` when the value did not occur in the fitted
data. -/
def colIdx : List ℚ → ℚ → Option Nat
  | [], _ => none
  | c :: cs, y => if c = y then some 0 else (colIdx cs y).map (· + 1)

/-- The column position a label receives when an encoder is fitted on
`ys`. -/
def encoderColumn (ys : List ℚ) (y : ℚ) : Option Nat :=
  colIdx (oneHotCategories ys) y

/-- Keras `binary_accuracy`: the fraction of test rows whose thresholded
prediction (`pred > 0.5`) equals the 0/1 label. -/
def binaryAccuracy (preds ys : List ℚ) : ℚ :=
  ((preds.zip ys).countP
      (fun p => (if (1 : ℚ)/2 < p.1 then (1 : ℚ) else 0) = p.2) : ℚ) /
    ((preds.zip ys).length : ℚ)

/-- Accumulator form of `np.argmax`: `best` is the running maximum, found
at index `bestIdx`; `i` is the index of the head of the remaining list.
NumPy keeps the first maximal element, so the running best is replaced
only on a strict increase. -/
def argmaxAux : ℚ → Nat → Nat → List ℚ → Nat
  | _, bestIdx, _, [] => bestIdx
  | best, bestIdx, i, x :: xs =>
    if best < x then argmaxAux x i (i + 1) xs else argmaxAux best bestIdx (i + 1) xs

/-- Function `np.argmax` over one row: the index of the first maximal element
(0 on an empty row, where NumPy instead raises). -/
def argmaxIdx : List ℚ → Nat
  | [] => 0
  | x :: xs => argmaxAux x 0 1 xs

/-- Keras `categorical_accuracy`: the fraction of test rows whose
predicted class (argmax of the output row) equals the argmax of the
one-hot label row. -/
def categoricalAccuracy (preds ys : List (List ℚ)) : ℚ :=
  ((preds.zip ys).countP (fun p => argmaxIdx p.1 = argmaxIdx p.2) : ℚ) /
    ((preds.zip ys).length : ℚ)

/-- The label list of `cardiotocographic-classification.py` l.108. -/
def labels : List String :=
  ["Normal patient", "Suspect patient", "Pathologic patient"]

/-- Assignment `num_categories = len(labels)` (l.138). -/
def num_categories : Nat := labels.length

/-- One output row of the trained cardiotocographic network on a scaled
feature row: the output layer is `Dense(num_categories, softmax)`, so the
row has one entry per category. The trained network itself is external to
the repository and enters as the oracle `m`. -/
def cardioPredictRow (m : List ℚ → Nat → ℚ) (x : List ℚ) : List ℚ :=
  (List.range num_categories).map (m x)

/-- Observable outcome of a run of `keras-predictor.py`: the printed test
accuracy, the raw predictions on `predicted.csv`, the per-person console
messages (l.74–75), the files written (none), and the feature rows passed
to `model.fit` (l.59). -/
structure DiabetesOutput where
  testAccuracy : ℚ
  predictions : List ℚ
  messages : List String
  filesWritten : List String
  fittedOn : List (List ℚ)
deriving Repr

/-- Functional model of the module body of `keras-predictor.py`
(l.22–75). `argv` is the process argument list, which the script never
reads; `loadTrain`/`loadPredict` are the results of the two `read_csv`
calls (`Except.error` models a raised pandas exception); `shuffle` and
`nTest` stand for the shuffling and test-set cardinality that
`train_test_split` draws from ambient randomness and the float
`test_size`; `model` is the externally-trained network's output function
(one sigmoid unit). -/
def runDiabetes (argv : List String)
    (loadTrain loadPredict : Except String (List (List ℚ)))
    (shuffle : List (List ℚ) → List (List ℚ)) (nTest : Nat)
    (model : List ℚ → ℚ) : Except String DiabetesOutput := do
  let data ← loadTrain
  let split := trainTestSplit (shuffle data) nTest
  let xTrain := split.1.map features
  let xTest := split.2.map features
  let yTest := split.2.map label
  let testPreds := xTest.map model
  let acc := binaryAccuracy testPreds yTest
  let toPredict ← loadPredict
  let predictions := toPredict.map model
  let messages := predictions.map (fun p =>
    if (1 : ℚ)/2 < p then "Person have got diabetes..." else "Person is healthy...")
  return ⟨acc, predictions, messages, [], xTrain⟩

/-- Observable outcome of a run of `cardiotocographic-classification.py`:
the printed evaluation metrics, the raw predictions on `predicted.csv`,
the printed label per prediction (l.156–158), the files written, the
feature rows passed to `model.fit` (l.63), and the two one-hot encodings
(l.128–129). -/
structure CardioOutput where
  lossValue : ℚ
  catAccuracy : ℚ
  predictions : List (List ℚ)
  printedLabels : List String
  filesWritten : List String
  fittedOn : List (List ℚ)
  yTrainEncoded : List (List ℚ)
  yTestEncoded : List (List ℚ)
deriving Repr

/-- Functional model of `main()` of
`cardiotocographic-classification.py` (l.98–161). `argv` is the process
argument list, never read by the script; `loadTrain` is the result of
`read_excel` + `dropna` + column selection (l.103–106), `loadPredict` of
`read_csv('predicted.csv')` (l.132); `shuffle` and `nTest` stand for the
randomness of `train_test_split`; `m` is the externally-trained network's
output function (softmax over `num_categories` units) and `lossVal` the
loss value `model.evaluate` returns. -/
def runCardio (argv : List String)
    (loadTrain loadPredict : Except String (List (List ℚ)))
    (shuffle : List (List ℚ) → List (List ℚ)) (nTest : Nat)
    (m : List ℚ → Nat → ℚ) (lossVal : ℚ) : Except String CardioOutput := do
  let data ← loadTrain
  let split := trainTestSplit (shuffle data) nTest
  let scaler := fitMinMax (split.1.map features)
  let xTrain := (split.1.map features).map (minMaxTransform scaler)
  let xTest := (split.2.map features).map (minMaxTransform scaler)
  let yTrain := fit_transform (split.1.map label)
  let yTest := fit_transform (split.2.map label)
  let toPredict ← loadPredict
  let toPredictScaled := toPredict.map (minMaxTransform scaler)
  let testPreds := xTest.map (cardioPredictRow m)
  let acc := categoricalAccuracy testPreds yTest
  let predictions := toPredictScaled.map (cardioPredictRow m)
  let printedLabels := predictions.map (fun row => labels.getD (argmaxIdx row) "")
  return ⟨lossVal, acc, predictions, printedLabels, cardioFilesWritten, xTrain,
    yTrain, yTest⟩

/-- The binary accuracy metric is nonnegative. -/
theorem binaryAccuracy_nonneg (preds ys : List ℚ) : 0 ≤ binaryAccuracy preds ys :=
  div_nonneg (Nat.cast_nonneg _) (Nat.cast_nonneg _)

/-- The binary accuracy metric is at most one. -/
theorem binaryAccuracy_le_one (preds ys : List ℚ) : binaryAccuracy preds ys ≤ 1 := by
  apply div_le_one_of_le₀
  · exact_mod_cast List.countP_le_length _
  · exact Nat.cast_nonneg _

/-- The categorical accuracy metric is nonnegative. -/
theorem categoricalAccuracy_nonneg (preds ys : List (List ℚ)) :
    0 ≤ categoricalAccuracy preds ys :=
  div_nonneg (Nat.cast_nonneg _) (Nat.cast_nonneg _)

/-- The categorical accuracy metric is at most one. -/
theorem categoricalAccuracy_le_one (preds ys : List (List ℚ)) :
    categoricalAccuracy preds ys ≤ 1 := by
  apply div_le_one_of_le₀
  · exact_mod_cast List.countP_le_length _
  · exact Nat.cast_nonneg _

/-- C4 counterexample: neither `train_test_split` call site passes a
`random_state`, so the scripts do not accept a seed that fixes the
train/test split. -/
theorem c4_counterexample :
    diabetesSplitCall.randomState = none ∧ cardioSplitCall.randomState = none :=
  ⟨rfl, rfl⟩

/-- C4 amended: with the input files present (both loads succeed) and the
dataset, ambient shuffle and trained-network oracle fixed, each pipeline
executes without error and the accuracy metric it reports lies in [0,1];
however the scripts accept no seed: both call `train_test_split` without
`random_state`, so the split comes from ambient randomness rather than a
user-fixed seed. -/
theorem c4_pipeline_accuracy :
    ∀ (argv : List String) (dataT dataP : List (List ℚ))
      (shuffle : List (List ℚ) → List (List ℚ)) (nTest : Nat)
      (model : List ℚ → ℚ) (m : List ℚ → Nat → ℚ) (lossVal : ℚ),
      (∃ out, runDiabetes argv (Except.ok dataT) (Except.ok dataP) shuffle nTest
          model = Except.ok out ∧ 0 ≤ out.testAccuracy ∧ out.testAccuracy ≤ 1) ∧
      (∃ out, runCardio argv (Except.ok dataT) (Except.ok dataP) shuffle nTest
          m lossVal = Except.ok out ∧ 0 ≤ out.catAccuracy ∧ out.catAccuracy ≤ 1) ∧
      diabetesSplitCall.randomState = none ∧ cardioSplitCall.randomState = none := by
  intro argv dataT dataP shuffle nTest model m lossVal
  refine ⟨⟨_, rfl, ?_, ?_⟩, ⟨_, rfl, ?_, ?_⟩, rfl, rfl⟩
  · exact binaryAccuracy_nonneg _ _
  · exact binaryAccuracy_le_one _ _
  · exact categoricalAccuracy_nonneg _ _
  · exact categoricalAccuracy_le_one _ _

/-- C5: neither script contains an exception handler or retry: a failure
of either file load surfaces as the very same error of the whole run, for
the diabetes script (first two conjuncts: failing dataset load, failing
prediction-input load) and the cardiotocographic script (last two
conjuncts). -/
theorem c5_exceptions_propagate :
    ∀ (e : String) (argv : List String) (d dataP : List (List ℚ))
      (lp : Except String (List (List ℚ)))
      (shuffle : List (List ℚ) → List (List ℚ)) (nTest : Nat)
      (model : List ℚ → ℚ) (m : List ℚ → Nat → ℚ) (lossVal : ℚ),
      runDiabetes argv (Except.error e) lp shuffle nTest model = Except.error e ∧
      runDiabetes argv (Except.ok d) (Except.error e) shuffle nTest model =
        Except.error e ∧
      runCardio argv (Except.error e) lp shuffle nTest m lossVal = Except.error e ∧
      runCardio argv (Except.ok d) (Except.error e) shuffle nTest m lossVal =
        Except.error e := by
  intros
  exact ⟨rfl, rfl, rfl, rfl⟩

/-- C6: the scripts parse no command-line arguments: two runs that differ
only in the argument list, with every other input held equal, produce
identical results. -/
theorem c6_argv_irrelevant :
    ∀ (argv1 argv2 : List String)
      (loadTrain loadPredict : Except String (List (List ℚ)))
      (shuffle : List (List ℚ) → List (List ℚ)) (nTest : Nat)
      (model : List ℚ → ℚ) (m : List ℚ → Nat → ℚ) (lossVal : ℚ),
      runDiabetes argv1 loadTrain loadPredict shuffle nTest model =
        runDiabetes argv2 loadTrain loadPredict shuffle nTest model ∧
      runCardio argv1 loadTrain loadPredict shuffle nTest m lossVal =
        runCardio argv2 loadTrain loadPredict shuffle nTest m lossVal := by
  intros
  exact ⟨rfl, rfl⟩

/-- Summing the indicator of a value over a duplicate-free list that
contains it gives exactly one. -/
theorem sum_indicator_nodup (l : List ℚ) (y : ℚ) (hnd : l.Nodup) (hy : y ∈ l) :
    (l.map (fun c => if c = y then (1 : ℚ) else 0)).sum = 1 := by
  induction l with
  | nil => cases hy
  | cons a t ih =>
    rw [List.map_cons, List.sum_cons]
    rcases List.mem_cons.mp hy with h | h
    · have hnt : y ∉ t := h ▸ (List.nodup_cons.mp hnd).1
      rw [if_pos h.symm]
      have hz : (t.map (fun c => if c = y then (1 : ℚ) else 0)).sum = 0 := by
        apply List.sum_eq_zero
        intro x hx
        obtain ⟨c, hc, rfl⟩ := List.mem_map.mp hx
        rw [if_neg]
        intro e
        exact hnt (e ▸ hc)
      rw [hz, add_zero]
    · have hne : ¬a = y := fun e => (List.nodup_cons.mp hnd).1 (e ▸ h)
      rw [if_neg hne, ih (List.nodup_cons.mp hnd).2 h, zero_add]

/-- The fitted categories of a one-hot encoder contain no duplicates. -/
theorem oneHotCategories_nodup (ys : List ℚ) : (oneHotCategories ys).Nodup :=
  (List.perm_insertionSort (· ≤ ·) ys.dedup).symm.nodup (List.nodup_dedup ys)

/-- A value is a fitted category exactly when it occurs in the fitted
data. -/
theorem mem_oneHotCategories {y : ℚ} {ys : List ℚ} :
    y ∈ oneHotCategories ys ↔ y ∈ ys := by
  unfold oneHotCategories
  rw [(List.perm_insertionSort (· ≤ ·) ys.dedup).mem_iff, List.mem_dedup]

/-- C7: every row of a fresh-fit one-hot encoding (as produced for
`y_train` and `y_test` at l.128–129 of the cardiotocographic script) has
entries in 0/1 only and exactly one set bit (its entries sum to 1). -/
theorem c7_one_hot_rows (ys row : List ℚ) (h : row ∈ fit_transform ys) :
    (∀ v ∈ row, v = 0 ∨ v = 1) ∧ row.sum = 1 := by
  obtain ⟨y, hy, rfl⟩ := List.mem_map.mp h
  constructor
  · intro v hv
    obtain ⟨c, _, rfl⟩ := List.mem_map.mp hv
    by_cases hc : c = y <;> simp [hc]
  · exact sum_indicator_nodup (oneHotCategories ys) y
      (oneHotCategories_nodup ys) (mem_oneHotCategories.mpr hy)

/-- Witness for C7 at the concrete fitted column `[3, 1, 2, 1]`, whose
categories are `[1, 2, 3]` and whose first encoded row is `[0, 0, 1]`. -/
theorem c7_one_hot_rows_witness :
    (∀ v ∈ ([0, 0, 1] : List ℚ), v = 0 ∨ v = 1) ∧
      ([0, 0, 1] : List ℚ).sum = 1 :=
  c7_one_hot_rows [3, 1, 2, 1] [0, 0, 1] (by decide)

/-- C8: the split is a partition with held-out evaluation data. For any
shuffling permutation of the row indices, the train part and the test
part of `train_test_split` are disjoint and together are a permutation of
all indices; splitting the shuffled rows is splitting the shuffled
indices; and in both pipelines the rows handed to `model.fit` are exactly
the feature rows of the train part of the split (so no test row reaches
the fitting routine). -/
theorem c8_split_partitions (n nTest : Nat) (perm : List (Fin n))
    (h : perm.Perm (List.finRange n)) (data : Fin n → List ℚ) :
    (trainTestSplit perm nTest).1.Disjoint (trainTestSplit perm nTest).2 ∧
      ((trainTestSplit perm nTest).1 ++ (trainTestSplit perm nTest).2).Perm
        (List.finRange n) ∧
      (trainTestSplit (perm.map data) nTest).1 =
        (trainTestSplit perm nTest).1.map data ∧
      (trainTestSplit (perm.map data) nTest).2 =
        (trainTestSplit perm nTest).2.map data ∧
      (∀ (argv : List String) (lt lp : List (List ℚ))
          (shuffle : List (List ℚ) → List (List ℚ)) (model : List ℚ → ℚ),
        ∃ out, runDiabetes argv (Except.ok lt) (Except.ok lp) shuffle nTest
            model = Except.ok out ∧
          out.fittedOn = (trainTestSplit (shuffle lt) nTest).1.map features) ∧
      (∀ (argv : List String) (lt lp : List (List ℚ))
          (shuffle : List (List ℚ) → List (List ℚ))
          (m : List ℚ → Nat → ℚ) (lossVal : ℚ),
        ∃ out, runCardio argv (Except.ok lt) (Except.ok lp) shuffle nTest m
            lossVal = Except.ok out ∧
          out.fittedOn = ((trainTestSplit (shuffle lt) nTest).1.map
              features).map (minMaxTransform (fitMinMax
                ((trainTestSplit (shuffle lt) nTest).1.map features)))) := by
  have hnd : perm.Nodup := h.nodup_iff.mpr (List.nodup_finRange n)
  have hsplit : perm.take nTest ++ perm.drop nTest = perm :=
    List.take_append_drop nTest perm
  have hnd2 : (perm.take nTest ++ perm.drop nTest).Nodup := by
    rw [hsplit]; exact hnd
  refine ⟨?_, ?_, ?_, ?_, ?_, ?_⟩
  · exact ((List.nodup_append.mp hnd2).2.2).symm
  · have h1 : (perm.drop nTest ++ perm.take nTest).Perm
        (perm.take nTest ++ perm.drop nTest) := List.perm_append_comm
    rw [hsplit] at h1
    exact h1.trans h
  · simp [trainTestSplit]
  · simp [trainTestSplit]
  · intro argv lt lp shuffle model
    exact ⟨_, rfl, rfl⟩
  · intro argv lt lp shuffle m lossVal
    exact ⟨_, rfl, rfl⟩

/-- Witness for C8 at the concrete index permutation `[2, 0, 3, 1]` of
`Fin 4` with one test row. -/
theorem c8_split_partitions_witness :
    (trainTestSplit ([2, 0, 3, 1] : List (Fin 4)) 1).1.Disjoint
        (trainTestSplit ([2, 0, 3, 1] : List (Fin 4)) 1).2 ∧
      ((trainTestSplit ([2, 0, 3, 1] : List (Fin 4)) 1).1 ++
          (trainTestSplit ([2, 0, 3, 1] : List (Fin 4)) 1).2).Perm
        (List.finRange 4) ∧
      (trainTestSplit (([2, 0, 3, 1] : List (Fin 4)).map
          (fun _ => ([] : List ℚ))) 1).1 =
        (trainTestSplit ([2, 0, 3, 1] : List (Fin 4)) 1).1.map
          (fun _ => ([] : List ℚ)) ∧
      (trainTestSplit (([2, 0, 3, 1] : List (Fin 4)).map
          (fun _ => ([] : List ℚ))) 1).2 =
        (trainTestSplit ([2, 0, 3, 1] : List (Fin 4)) 1).2.map
          (fun _ => ([] : List ℚ)) ∧
      (∀ (argv : List String) (lt lp : List (List ℚ))
          (shuffle : List (List ℚ) → List (List ℚ)) (model : List ℚ → ℚ),
        ∃ out, runDiabetes argv (Except.ok lt) (Except.ok lp) shuffle 1
            model = Except.ok out ∧
          out.fittedOn = (trainTestSplit (shuffle lt) 1).1.map features) ∧
      (∀ (argv : List String) (lt lp : List (List ℚ))
          (shuffle : List (List ℚ) → List (List ℚ))
          (m : List ℚ → Nat → ℚ) (lossVal : ℚ),
        ∃ out, runCardio argv (Except.ok lt) (Except.ok lp) shuffle 1 m
            lossVal = Except.ok out ∧
          out.fittedOn = ((trainTestSplit (shuffle lt) 1).1.map
              features).map (minMaxTransform (fitMinMax
                ((trainTestSplit (shuffle lt) 1).1.map features)))) :=
  c8_split_partitions 4 1 [2, 0, 3, 1] (by decide) (fun _ => [])

/-- The accumulator form of argmax returns an index below `i` plus the
number of remaining elements, provided the running best index already
is. -/
theorem argmaxAux_lt (l : List ℚ) : ∀ (best : ℚ) (bestIdx i : Nat),
    bestIdx < i → argmaxAux best bestIdx i l < i + l.length := by
  induction l with
  | nil =>
    intro best bestIdx i hlt
    simpa [argmaxAux] using Nat.lt_of_lt_of_le hlt (Nat.le_add_right i 0)
  | cons x xs ih =>
    intro best bestIdx i hlt
    simp only [argmaxAux, List.length_cons]
    split
    · have := ih x i (i + 1) (Nat.lt_succ_self i)
      omega
    · have := ih best bestIdx (i + 1) (Nat.lt_succ_of_lt hlt)
      omega

/-- Function `np.argmax` of a nonempty row is a valid index into the row. -/
theorem argmaxIdx_lt (l : List ℚ) (h : l ≠ []) : argmaxIdx l < l.length := by
  cases l with
  | nil => exact absurd rfl h
  | cons x xs =>
    have := argmaxAux_lt xs x 0 1 Nat.one_pos
    simp only [argmaxIdx, List.length_cons]
    omega

/-- C9: every output row of the cardiotocographic network has
`num_categories = len(labels) = 3` entries, so the argmax the script
prints through `labels[...]` (l.156–158) is always in `\x7b0, 1, 2\x7d`
and the indexing never goes out of bounds. -/
theorem c9_argmax_in_bounds :
    ∀ (m : List ℚ → Nat → ℚ) (x : List ℚ),
      argmaxIdx (cardioPredictRow m x) < labels.length ∧
      num_categories = labels.length ∧ labels.length = 3 := by
  intro m x
  refine ⟨?_, rfl, rfl⟩
  have hlen : (cardioPredictRow m x).length = 3 := by
    simp [cardioPredictRow, num_categories, labels]
  have hne : cardioPredictRow m x ≠ [] := by
    intro hnil
    rw [hnil] at hlen
    simp at hlen
  have := argmaxIdx_lt (cardioPredictRow m x) hne
  rw [hlen] at this
  simpa [labels] using this

/-- A fitted encoder assigns no column to a value exactly when the value
is missing from the fitted category list. -/
theorem colIdx_eq_none_iff (l : List ℚ) (y : ℚ) :
    colIdx l y = none ↔ y ∉ l := by
  induction l with
  | nil => simp [colIdx]
  | cons c cs ih =>
    by_cases h : c = y
    · subst h
      simp [colIdx]
    · have hyc : y ≠ c := fun e => h e.symm
      simp [colIdx, h, hyc, ih]

/-- The fitted categories have the same element set as the fitted data. -/
theorem oneHotCategories_toFinset (ys : List ℚ) :
    (oneHotCategories ys).toFinset = ys.toFinset := by
  ext x
  simp [List.mem_toFinset, mem_oneHotCategories]

/-- The fitted categories are sorted. -/
theorem oneHotCategories_sorted (ys : List ℚ) :
    (oneHotCategories ys).Sorted (· ≤ ·) :=
  List.sorted_insertionSort _ _

/-- Fitting on data with the same set of distinct values yields the same
category list. -/
theorem oneHotCategories_eq_of_toFinset_eq {a b : List ℚ}
    (h : a.toFinset = b.toFinset) : oneHotCategories a = oneHotCategories b := by
  have hperm : (oneHotCategories a).Perm (oneHotCategories b) :=
    List.perm_of_nodup_nodup_toFinset_eq (oneHotCategories_nodup a)
      (oneHotCategories_nodup b)
      (by rw [oneHotCategories_toFinset, oneHotCategories_toFinset]; exact h)
  exact List.eq_of_perm_of_sorted hperm (oneHotCategories_sorted a)
    (oneHotCategories_sorted b)

/-- C10: the cardiotocographic script one-hot encodes `y_test` by fitting
the encoder afresh on `y_test` (`fit_transform`, l.129) rather than
reusing the fit on `y_train`; and the column a label receives from the
fit on `y_train` agrees with the column it receives from the fit on
`y_test` (for every label, including absence of a column) exactly when
the sets of distinct labels of the two columns coincide. -/
theorem c10_fresh_fit_encoder_columns :
    (∀ yTr yTe : List ℚ,
      (∀ v, encoderColumn yTr v = encoderColumn yTe v) ↔
        yTr.toFinset = yTe.toFinset) ∧
    (∀ (argv : List String) (lt lp : List (List ℚ))
        (shuffle : List (List ℚ) → List (List ℚ)) (nTest : Nat)
        (m : List ℚ → Nat → ℚ) (lossVal : ℚ),
      ∃ out, runCardio argv (Except.ok lt) (Except.ok lp) shuffle nTest m
          lossVal = Except.ok out ∧
        out.yTestEncoded =
          fit_transform ((trainTestSplit (shuffle lt) nTest).2.map label) ∧
        out.yTrainEncoded =
          fit_transform ((trainTestSplit (shuffle lt) nTest).1.map label)) := by
  constructor
  · intro a b
    constructor
    · intro hcol
      have key : ∀ (u v : List ℚ), (∀ w, encoderColumn u w = encoderColumn v w) →
          ∀ x, x ∈ u → x ∈ v := by
        intro u v hc x hx
        by_contra hnx
        have h1 : encoderColumn v x = none :=
          (colIdx_eq_none_iff _ _).mpr (fun hm => hnx (mem_oneHotCategories.mp hm))
        have h2 : encoderColumn u x = none := (hc x).trans h1
        exact ((colIdx_eq_none_iff _ _).mp h2) (mem_oneHotCategories.mpr hx)
      ext x
      simp only [List.mem_toFinset]
      exact ⟨key a b hcol x, key b a (fun w => (hcol w).symm) x⟩
    · intro hset v
      unfold encoderColumn
      rw [oneHotCategories_eq_of_toFinset_eq hset]
  · intro argv lt lp shuffle nTest m lossVal
    exact ⟨_, rfl, rfl, rfl⟩
